import Mathlib

/-!
Shallow embedding of `packages/react-native/cli.js`: the deprecation-aware
command dispatcher (version lookup, deprecation gate, delegation), together
with the JavaScript value semantics needed to model `parseVersion` and the
module-load error guard faithfully.
-/

namespace RNCli

/-- A JavaScript primitive value as it occurs in this program: a number
(always integral here), the special `NaN`, or a string. -/
inductive JSVal where
  | num : Int → JSVal
  | nan : JSVal
  | str : String → JSVal
deriving DecidableEq, Repr

/-- Decimal digits of a natural number (structurally recursive on a digit
budget of 64, ample for every number this program forms), most significant
first. -/
def natDecimalChars : Nat → Nat → List Char
  | 0, _ => []
  | fuel + 1, n =>
    if n < 10 then [Nat.digitChar n]
    else natDecimalChars fuel (n / 10) ++ [Nat.digitChar (n % 10)]

/-- JS `ToString` on an integer: decimal digits, with a leading minus sign
when negative. -/
def intToDecimal (n : Int) : String :=
  if n < 0 then ⟨'-' :: natDecimalChars 64 n.natAbs⟩
  else ⟨natDecimalChars 64 n.natAbs⟩

/-- JS `ToString` on the values above (numbers in this program are
integral). -/
def jsValToString : JSVal → String
  | .num n => intToDecimal n
  | .nan => "NaN"
  | .str s => s

/-- JS `String.prototype.split` with a single-character separator, on the
character list: splitting never yields the empty list, and separators at
the ends yield empty fields, as in JS. -/
def splitChars (sep : Char) : List Char → List (List Char)
  | [] => [[]]
  | c :: cs =>
    match splitChars sep cs with
    | [] => [[]]
    | h :: t => if c = sep then [] :: h :: t else (c :: h) :: t

/-- JS `String.prototype.split` with a single-character separator (the
program only splits on `'-'` and `'.'`). -/
def jsSplit (sep : Char) (s : String) : List String :=
  (splitChars sep s.data).map fun l => ⟨l⟩

/-- JS `String.prototype.startsWith`: code-unit prefix test. -/
def jsStartsWith (s pre : String) : Bool :=
  pre.data.isPrefixOf s.data

/-- JS `ToNumber` on a string, restricted to what this program feeds it:
the empty string converts to `0`, a pure decimal-digit string to its value,
and anything else to `NaN` (version components are digit strings). -/
def jsStringToNumber (s : String) : JSVal :=
  if s = "" then .num 0
  else if s.data.all Char.isDigit then
    .num ((s.data.foldl (fun acc c => acc * 10 + (c.toNat - 48)) 0 : Nat) : Int)
  else .nan

/-- JS `ToNumber` on a primitive value. -/
def jsToNumber : JSVal → JSVal
  | .str s => jsStringToNumber s
  | v => v

/-- JS `*`: both operands converted with `ToNumber`; `NaN` is absorbing. -/
def jsMul (a b : JSVal) : JSVal :=
  match jsToNumber a, jsToNumber b with
  | .num x, .num y => .num (x * y)
  | _, _ => .nan

/-- JS `+`: string concatenation when either operand is a string, numeric
addition otherwise (`NaN` absorbing). -/
def jsAdd (a b : JSVal) : JSVal :=
  match a, b with
  | .str x, y => .str (x ++ jsValToString y)
  | x, .str y => .str (jsValToString x ++ y)
  | x, y =>
    match jsToNumber x, jsToNumber y with
    | .num m, .num n => .num (m + n)
    | _, _ => .nan

/-- JS string `<`: lexicographic comparison by code units (codepoints agree
with code units on the strings this program produces). -/
def charListLT : List Char → List Char → Bool
  | [], [] => false
  | [], _ :: _ => true
  | _ :: _, [] => false
  | a :: as, b :: bs =>
    if a < b then true
    else if b < a then false
    else charListLT as bs

/-- JS `>` (abstract relational comparison): lexicographic by code units when
both operands are strings, numeric otherwise, with `NaN` making it false. -/
def jsGT (a b : JSVal) : Bool :=
  match a, b with
  | .str x, .str y => charListLT y.data x.data
  | x, y =>
    match jsToNumber x, jsToNumber y with
    | .num m, .num n => decide (n < m)
    | _, _ => false

/-- `parseVersion` from cli.js lines 59-62:
`const [major, minor = 0, patch = 0] = version.split('-')[0].split('.');`
`return major * 1000000 + minor * 1000 + patch;`
The destructuring defaults are the number `0`; present components stay
strings, so the final `+ patch` concatenates when a patch component exists. -/
def parseVersion (version : String) : JSVal :=
  let stripped := (jsSplit '-' version).headD ""
  let parts := jsSplit '.' stripped
  let major : JSVal := .str (parts.getD 0 "")
  let minor : JSVal := match parts.get? 1 with
    | some s => .str s
    | none => .num 0
  let patch : JSVal := match parts.get? 2 with
    | some s => .str s
    | none => .num 0
  jsAdd (jsAdd (jsMul major (.num 1000000)) (jsMul minor (.num 1000))) patch

/-- The `HEAD` sentinel version (cli.js line 33). -/
def HEAD : String := "1000.0.0"

/-- `new Date('2024-09-30').getTime()` (cli.js line 39): the UTC-midnight
epoch milliseconds of the deprecation cutoff. -/
def CLI_DEPRECATION_DATE_MS : Int := 1727654400000

/-- The environment variables cli.js reads (lines 30-32, 130, 134); `none`
models an unset variable. -/
structure Env where
  npm_lifecycle_event : Option String
  npm_config_registry : Option String
  SKIP : Option String
deriving DecidableEq, Repr

/-- JS truthiness of `process.env.X`: an env value is a string or undefined,
and the only falsy string is the empty one. -/
def envTruthy : Option String → Bool
  | none => false
  | some s => s ≠ ""

/-- `isNpxRuntime` (cli.js line 30): `process.env.npm_lifecycle_event === 'npx'`. -/
def isNpxRuntime (env : Env) : Bool :=
  env.npm_lifecycle_event = some "npx"

/-- The chalk emphasis picked by `warnWithDeprecationSchedule` (lines 95-102),
keyed on the days-remaining thresholds. -/
inductive Tier where
  | bgRedWhiteBold
  | redBold
  | greenBold
  | blueBrightBold
deriving DecidableEq, Repr

/-- The console messages the gate can emit, abstracted from their chalk-styled
text to their identity and computed payloads. -/
inductive Msg where
  /-- The advisory upgrade warning of `main` (lines 138-145). -/
  | upgradeWarning (current latest : String)
  /-- The Phase-2 warning of `warnWithDeprecationSchedule` (lines 104-109),
  carrying the computed days-remaining count, the chalk emphasis, and
  whether the count was pluralized (`daysRemaining > 1`). -/
  | scheduleWarning (days : Int) (emphasis : Tier) (plural : Bool)
  /-- The Phase-1 one-line notice of `warnWhenRunningInit` (lines 73-75). -/
  | lightNotice
  /-- The Phase-3 terminal notice of `warnWithDeprecated` (lines 117-121). -/
  | terminalNotice
deriving DecidableEq, Repr

/-- `warnWhenRunningInit` (lines 71-77): emits the light notice exactly when
`process.argv[2] === 'init'`. -/
def warnWhenRunningInit (argv2 : Option String) : List Msg :=
  if argv2 = some "init" then [.lightNotice] else []

/-- `daysRemaining` (lines 91-93):
`Math.ceil((CLI_DEPRECATION_DATE.getTime() - now) / 86_400_000)`, as exact
integer ceiling division (the magnitudes involved are exact in JS floats). -/
def daysRemaining (nowMs : Int) : Int :=
  -((nowMs - CLI_DEPRECATION_DATE_MS).fdiv 86400000)

/-- `warnWithDeprecationSchedule` (lines 86-110): for the `init` argument,
emits the schedule warning with the computed days-remaining, the tiered
emphasis, and the pluralization flag. -/
def warnWithDeprecationSchedule (argv2 : Option String) (nowMs : Int) : List Msg :=
  if argv2 ≠ some "init" then []
  else
    let d := daysRemaining nowMs
    let emphasis : Tier :=
      if d < 10 then .bgRedWhiteBold
      else if d < 30 then .redBold
      else if d < 60 then .greenBold
      else .blueBrightBold
    [.scheduleWarning d emphasis (d > 1)]

/-- `warnWithDeprecated` (lines 112-122): for the `init` argument, emits the
terminal notice. -/
def warnWithDeprecated (argv2 : Option String) : List Msg :=
  if argv2 ≠ some "init" then [] else [.terminalNotice]

/-- How `main` leaves the process: `process.exit(code)` (line 165) or the
delegation `require('@react-native-community/cli').run(name)` (line 174).
`delegated` records the argument passed to `run` and the process argv at
hand-off, which `main` never mutates. -/
inductive Outcome where
  | exited (code : Nat)
  | delegated (runArg : String) (argvAtHandoff : List String)
deriving DecidableEq, Repr

/-- The inputs of one `main` invocation: the `name`/`version` fields read
from `./package.json` (line 13, not under src/), the environment, the full
`process.argv`, the wall clock, and the outcome of `getLatestVersion`'s
promise. A `.error` fetch outcome covers every failure mode of lines 41-57:
the transport `'error'` event and a body whose JSON parse or `.version`
access throws, both of which reject the promise. -/
structure MainInput where
  pkgName : String
  currentVersion : String
  env : Env
  argv : List String
  nowMs : Int
  fetchOutcome : Except Unit String
deriving Repr

/-- What one `main` invocation did: whether the network lookup was performed
(the `await getLatestVersion()` of line 136), the console messages in
emission order, and how the process ended. -/
structure MainResult where
  fetched : Bool
  messages : List Msg
  outcome : Outcome
deriving DecidableEq, Repr

/-- The guard of cli.js line 134:
`isNpxRuntime && !process.env.SKIP && currentVersion !== HEAD`. -/
def shouldFetch (i : MainInput) : Bool :=
  isNpxRuntime i.env && !envTruthy i.env.SKIP && i.currentVersion ≠ HEAD

/-- The advisory version-check block of `main` (cli.js lines 134-150): when
the guard holds, await the fetch; on success warn iff
`parseVersion(latest) > parseVersion(currentVersion)`; the `catch` swallows
every rejection. -/
def versionCheckMessages (i : MainInput) : List Msg :=
  if shouldFetch i then
    match i.fetchOutcome with
    | .ok latest =>
      if jsGT (parseVersion latest) (parseVersion i.currentVersion) then
        [.upgradeWarning i.currentVersion latest]
      else []
    | .error _ => []
  else []

/-- `isDeprecated` (cli.js lines 152-154):
`CLI_DEPRECATION_DATE.getTime() <= new Date().getTime() || currentVersion.startsWith('0.76')`. -/
def isDeprecatedAt (currentVersion : String) (nowMs : Int) : Bool :=
  decide (CLI_DEPRECATION_DATE_MS ≤ nowMs) || jsStartsWith currentVersion "0.76"

/-- `main` (cli.js lines 133-175), with `process.argv[2]` as the first
positional argument. -/
def main (i : MainInput) : MainResult :=
  let argv2 := i.argv[2]?
  if i.currentVersion ≠ HEAD && isDeprecatedAt i.currentVersion i.nowMs then
    { fetched := shouldFetch i
      messages := versionCheckMessages i ++ warnWithDeprecated argv2
      outcome := .exited 1 }
  else
    { fetched := shouldFetch i
      messages := versionCheckMessages i ++
        (if jsStartsWith i.currentVersion "0.75" then
          warnWithDeprecationSchedule argv2 i.nowMs
        else []) ++
        warnWhenRunningInit argv2
      outcome := .delegated i.pkgName i.argv }

/-! ### Library-load path (cli.js lines 177-194) -/

/-- An error value caught by the `require` guard: its `code` property
(undefined when absent) and its `message` string. -/
structure JsError where
  code : Option String
  message : String
deriving DecidableEq, Repr

/-- JS `!` applied to `e.code` (a string or undefined): true exactly on
undefined and the empty string. -/
def jsNotCode : Option String → Bool
  | none => true
  | some s => s = ""

/-- A JS primitive for the strict-equality comparison in the guard. -/
inductive JSPrim where
  | bool (b : Bool)
  | str (s : String)
deriving DecidableEq, Repr

/-- JS `===` on primitives: values of different types are never equal. -/
def strictEq : JSPrim → JSPrim → Bool
  | .bool a, .bool b => a = b
  | .str a, .str b => a = b
  | _, _ => false

/-- `/@react-native-community\/cli/.test(msg)`: the regex is a literal, so
the test is substring containment. -/
def messageMentionsCli (msg : String) : Bool :=
  (msg.splitOn "@react-native-community/cli").length > 1

/-- The guard condition of cli.js lines 185-188, exactly as written:
`!e.code === 'MODULE_NOT_FOUND' && /@react-native-community\/cli/.test(e.message)`.
Unary `!` binds tighter than `===`, so the left conjunct compares a boolean
against a string. -/
def rethrowCondition (e : JsError) : Bool :=
  strictEq (.bool (jsNotCode e.code)) (.str "MODULE_NOT_FOUND") &&
  messageMentionsCli e.message

/-- The module object cli.js exports on the library-load path: either the
initial stub of lines 24-28 (whose `run`/`loadConfig` throw the deprecation
error) or the resolved `@react-native-community/cli` module. -/
inductive CliModule where
  | stub
  | resolved
deriving DecidableEq, Repr

/-- The library-load path (lines 179-191): attempt the `require`; on failure
rethrow when the guard condition holds, otherwise keep the stub. -/
def loadAsLibrary (resolution : Except JsError CliModule) :
    Except JsError CliModule :=
  match resolution with
  | .ok c => .ok c
  | .error e => if rethrowCondition e then .error e else .ok .stub

/-! ### Helper lemmas -/

theorem main_fetched (i : MainInput) : (main i).fetched = shouldFetch i := by
  simp only [main]
  split <;> rfl

theorem versionCheckMessages_only_upgrade {i : MainInput} {m : Msg}
    (hm : m ∈ versionCheckMessages i) : ∃ c l, m = .upgradeWarning c l := by
  unfold versionCheckMessages at hm
  split at hm
  · split at hm
    · split at hm
      · simp only [List.mem_singleton] at hm
        exact ⟨_, _, hm⟩
      · simp at hm
    · simp at hm
  · simp at hm

theorem versionCheckMessages_of_error {i : MainInput}
    (h : i.fetchOutcome = .error ()) : versionCheckMessages i = [] := by
  unfold versionCheckMessages
  rw [h]
  split <;> rfl

theorem mem_warnWithDeprecated {a : Option String} {m : Msg}
    (h : m ∈ warnWithDeprecated a) : m = .terminalNotice ∧ a = some "init" := by
  unfold warnWithDeprecated at h
  split at h <;> simp_all

theorem mem_warnWhenRunningInit {a : Option String} {m : Msg}
    (h : m ∈ warnWhenRunningInit a) : m = .lightNotice ∧ a = some "init" := by
  unfold warnWhenRunningInit at h
  split at h <;> simp_all

theorem mem_warnWithDeprecationSchedule {a : Option String} {t : Int} {m : Msg}
    (h : m ∈ warnWithDeprecationSchedule a t) :
    (∃ d e p, m = .scheduleWarning d e p) ∧ a = some "init" := by
  unfold warnWithDeprecationSchedule at h
  split at h
  · simp at h
  · next hne =>
    simp only [List.mem_singleton] at h
    exact ⟨⟨_, _, _, h⟩, not_not.mp hne⟩

theorem main_def (i : MainInput) :
    main i =
      if i.currentVersion ≠ HEAD && isDeprecatedAt i.currentVersion i.nowMs then
        { fetched := shouldFetch i
          messages := versionCheckMessages i ++ warnWithDeprecated (i.argv[2]?)
          outcome := .exited 1 }
      else
        { fetched := shouldFetch i
          messages := versionCheckMessages i ++
            (if jsStartsWith i.currentVersion "0.75" then
              warnWithDeprecationSchedule (i.argv[2]?) i.nowMs
            else []) ++
            warnWhenRunningInit (i.argv[2]?)
          outcome := .delegated i.pkgName i.argv } := rfl

theorem mem_main_messages {i : MainInput} {m : Msg}
    (hm : m ∈ (main i).messages) :
    m ∈ versionCheckMessages i ∨
    m ∈ warnWithDeprecated (i.argv[2]?) ∨
    m ∈ warnWithDeprecationSchedule (i.argv[2]?) i.nowMs ∨
    m ∈ warnWhenRunningInit (i.argv[2]?) := by
  rw [main_def] at hm
  by_cases hc : (i.currentVersion ≠ HEAD &&
      isDeprecatedAt i.currentVersion i.nowMs) = true
  · rw [if_pos hc] at hm
    simp only [List.mem_append] at hm
    rcases hm with h | h
    · exact Or.inl h
    · exact Or.inr (Or.inl h)
  · rw [if_neg hc] at hm
    simp only [List.mem_append] at hm
    rcases hm with (h | h) | h
    · exact Or.inl h
    · split at h
      · exact Or.inr (Or.inr (Or.inl h))
      · simp at h
    · exact Or.inr (Or.inr (Or.inr h))

/-! ### Claim theorems -/

/-- C1: if the current date is at or past the deprecation cutoff (or the
running version starts with "0.76"), the running version is not the HEAD
marker, and the first positional argument is "init", then `main` emits the
terminal deprecation notice, exits the process with code 1, and never
invokes the delegate. -/
theorem terminal_gate_on_init (i : MainInput)
    (hdep : CLI_DEPRECATION_DATE_MS ≤ i.nowMs ∨
      jsStartsWith i.currentVersion "0.76" = true)
    (hver : i.currentVersion ≠ HEAD)
    (harg : i.argv[2]? = some "init") :
    (main i).outcome = .exited 1 ∧
    Msg.terminalNotice ∈ (main i).messages ∧
    ∀ s args, (main i).outcome ≠ .delegated s args := by
  have hc : (i.currentVersion ≠ HEAD &&
      isDeprecatedAt i.currentVersion i.nowMs) = true := by
    simp only [isDeprecatedAt, Bool.and_eq_true, Bool.or_eq_true,
      decide_eq_true_eq]
    exact ⟨hver, hdep⟩
  rw [main_def, if_pos hc]
  refine ⟨rfl, ?_, fun s args h => Outcome.noConfusion h⟩
  have hw : warnWithDeprecated (i.argv[2]?) = [Msg.terminalNotice] := by
    simp [warnWithDeprecated, harg]
  rw [hw]
  exact List.mem_append_right _ (by simp)

/-- Witness for C1 at version "0.75.4", the cutoff instant, argument "init". -/
theorem terminal_gate_on_init_witness :
    (main ⟨"react-native", "0.75.4", ⟨none, none, none⟩,
      ["node", "cli", "init"], 1727654400000, .error ()⟩).outcome =
        .exited 1 ∧
    Msg.terminalNotice ∈ (main ⟨"react-native", "0.75.4", ⟨none, none, none⟩,
      ["node", "cli", "init"], 1727654400000, .error ()⟩).messages ∧
    ∀ s args, (main ⟨"react-native", "0.75.4", ⟨none, none, none⟩,
      ["node", "cli", "init"], 1727654400000, .error ()⟩).outcome ≠
        .delegated s args :=
  terminal_gate_on_init _ (Or.inl (by decide)) (by decide) (by decide)

/-- C2: with the HEAD marker as running version and first argument "init",
`main` performs no network fetch at any date under any environment and
reaches the delegation step rather than terminating. -/
theorem head_marker_bypasses_gate (i : MainInput)
    (hver : i.currentVersion = HEAD)
    (_harg : i.argv[2]? = some "init") :
    (main i).fetched = false ∧
    (main i).outcome = .delegated i.pkgName i.argv := by
  have hc : (i.currentVersion ≠ HEAD &&
      isDeprecatedAt i.currentVersion i.nowMs) = false := by
    simp [hver]
  constructor
  · rw [main_fetched]
    simp [shouldFetch, hver]
  · rw [main_def, if_neg]
    rw [hc]
    simp

/-- Witness for C2 at a date far past the cutoff with the npx marker set. -/
theorem head_marker_bypasses_gate_witness :
    (main ⟨"react-native", "1000.0.0", ⟨some "npx", none, none⟩,
      ["node", "cli", "init"], 1900000000000, .ok "99.0.0"⟩).fetched =
        false ∧
    (main ⟨"react-native", "1000.0.0", ⟨some "npx", none, none⟩,
      ["node", "cli", "init"], 1900000000000, .ok "99.0.0"⟩).outcome =
        .delegated "react-native" ["node", "cli", "init"] :=
  head_marker_bypasses_gate _ (by decide) (by decide)

/-- C3, failing input: `parseVersion` concatenates the patch component onto
the number `major*1000000 + minor*1000` (the components of `split` are
strings, so the final JS `+` is string concatenation), and `>` on the two
resulting strings is lexicographic: 0.75.10 is a strictly newer release
than 0.75.9 yet `parseVersion('0.75.10') > parseVersion('0.75.9')` is
false (and the comparison in the opposite, older direction is true), while
the pre-release-suffix invariance does hold. -/
theorem parseVersion_concat_failing_input :
    parseVersion "0.75.9" = .str "750009" ∧
    parseVersion "0.75.10" = .str "7500010" ∧
    jsGT (parseVersion "0.75.10") (parseVersion "0.75.9") = false ∧
    jsGT (parseVersion "0.75.9") (parseVersion "0.75.10") = true ∧
    parseVersion "0.75.10-rc.0" = parseVersion "0.75.10" := by
  exact ⟨rfl, rfl, by decide, by decide, rfl⟩

/-- C4: the latest-version lookup is performed iff the npm lifecycle event
is "npx", the SKIP opt-out is unset or empty, and the running version is
not the HEAD marker. -/
theorem version_check_iff (i : MainInput) :
    (main i).fetched = true ↔
      (i.env.npm_lifecycle_event = some "npx" ∧
       envTruthy i.env.SKIP = false ∧
       i.currentVersion ≠ HEAD) := by
  rw [main_fetched]
  simp [shouldFetch, isNpxRuntime, and_assoc]

/-- C8, failing input: the guard `!e.code === 'MODULE_NOT_FOUND'` compares
a boolean against a string, so the rethrow condition is false for every
error and the library-load path swallows all of them, keeping the stub;
in particular an ERR_REQUIRE_ESM error mentioning the delegate package
does not propagate. -/
theorem require_guard_swallows_every_error :
    (∀ e : JsError, loadAsLibrary (.error e) = .ok .stub) ∧
    loadAsLibrary (.error ⟨some "ERR_REQUIRE_ESM",
      "require() of ES Module @react-native-community/cli/index.js from cli.js is not supported"⟩) =
        .ok .stub := by
  have h : ∀ e : JsError, rethrowCondition e = false := fun e => by
    simp [rethrowCondition, strictEq]
  refine ⟨fun e => ?_, ?_⟩
  · simp [loadAsLibrary, h e]
  · simp [loadAsLibrary, h]

/-- Shared helper: with a non-"init" first positional argument, none of the
three deprecation messages can be among `main`'s output. -/
theorem no_deprecation_message_of_non_init {i : MainInput}
    (h : i.argv[2]? ≠ some "init") :
    Msg.lightNotice ∉ (main i).messages ∧
    (∀ d e p, Msg.scheduleWarning d e p ∉ (main i).messages) ∧
    Msg.terminalNotice ∉ (main i).messages := by
  refine ⟨fun hm => ?_, fun d e p hm => ?_, fun hm => ?_⟩ <;>
    rcases mem_main_messages hm with h1 | h1 | h1 | h1
  · obtain ⟨c, l, hcl⟩ := versionCheckMessages_only_upgrade h1
    exact Msg.noConfusion hcl
  · exact absurd (mem_warnWithDeprecated h1).2 h
  · exact absurd (mem_warnWithDeprecationSchedule h1).2 h
  · exact absurd (mem_warnWhenRunningInit h1).2 h
  · obtain ⟨c, l, hcl⟩ := versionCheckMessages_only_upgrade h1
    exact Msg.noConfusion hcl
  · exact absurd (mem_warnWithDeprecated h1).2 h
  · exact absurd (mem_warnWithDeprecationSchedule h1).2 h
  · exact absurd (mem_warnWhenRunningInit h1).2 h
  · obtain ⟨c, l, hcl⟩ := versionCheckMessages_only_upgrade h1
    exact Msg.noConfusion hcl
  · exact absurd (mem_warnWithDeprecated h1).2 h
  · exact absurd (mem_warnWithDeprecationSchedule h1).2 h
  · exact absurd (mem_warnWhenRunningInit h1).2 h

/-- The same invocation with the SKIP opt-out set (cli.js line 130), which
disables the version check outright. -/
def withSkip (i : MainInput) : MainInput :=
  { i with env := { i.env with SKIP := some "true" } }

theorem withSkip_proj (i : MainInput) :
    (withSkip i).pkgName = i.pkgName ∧
    (withSkip i).currentVersion = i.currentVersion ∧
    (withSkip i).argv = i.argv ∧
    (withSkip i).nowMs = i.nowMs :=
  ⟨rfl, rfl, rfl, rfl⟩

theorem versionCheckMessages_withSkip (i : MainInput) :
    versionCheckMessages (withSkip i) = [] := by
  simp [versionCheckMessages, shouldFetch, withSkip, envTruthy]

/-- C5: every failure of the latest-version lookup is suppressed locally:
no upgrade warning (or any other fetch-derived output) appears, and the
messages and outcome coincide with those of a run whose version check is
disabled outright, so execution proceeds unchanged to the deprecation gate
and delegation. -/
theorem fetch_failure_suppressed (i : MainInput)
    (h : i.fetchOutcome = .error ()) :
    (∀ c l, Msg.upgradeWarning c l ∉ (main i).messages) ∧
    (main i).messages = (main (withSkip i)).messages ∧
    (main i).outcome = (main (withSkip i)).outcome := by
  have hvc : versionCheckMessages i = [] := versionCheckMessages_of_error h
  have hvc' : versionCheckMessages (withSkip i) = [] :=
    versionCheckMessages_withSkip i
  have hmo : (main i).messages = (main (withSkip i)).messages ∧
      (main i).outcome = (main (withSkip i)).outcome := by
    rw [main_def i, main_def (withSkip i)]
    rw [(withSkip_proj i).1, (withSkip_proj i).2.1, (withSkip_proj i).2.2.1,
      (withSkip_proj i).2.2.2, hvc, hvc']
    by_cases hb : (i.currentVersion ≠ HEAD &&
        isDeprecatedAt i.currentVersion i.nowMs) = true
    · rw [if_pos hb, if_pos hb]
      exact ⟨rfl, rfl⟩
    · rw [if_neg hb, if_neg hb]
      exact ⟨rfl, rfl⟩
  refine ⟨fun c l hm => ?_, hmo.1, hmo.2⟩
  rcases mem_main_messages hm with h1 | h1 | h1 | h1
  · rw [hvc] at h1
    exact absurd h1 (List.not_mem_nil _)
  · exact Msg.noConfusion (mem_warnWithDeprecated h1).1
  · obtain ⟨⟨d, e, p, hde⟩, -⟩ := mem_warnWithDeprecationSchedule h1
    exact Msg.noConfusion hde
  · exact Msg.noConfusion (mem_warnWhenRunningInit h1).1

/-- Witness for C5: with the npx marker set and a failing fetch, the run
matches the opted-out run and shows no upgrade warning. -/
theorem fetch_failure_suppressed_witness :
    (∀ c l, Msg.upgradeWarning c l ∉
      (main ⟨"react-native", "0.75.4", ⟨some "npx", none, none⟩,
        ["node", "cli", "init"], 1700000000000, .error ()⟩).messages) ∧
    (main ⟨"react-native", "0.75.4", ⟨some "npx", none, none⟩,
      ["node", "cli", "init"], 1700000000000, .error ()⟩).messages =
      (main (withSkip ⟨"react-native", "0.75.4", ⟨some "npx", none, none⟩,
        ["node", "cli", "init"], 1700000000000, .error ()⟩)).messages ∧
    (main ⟨"react-native", "0.75.4", ⟨some "npx", none, none⟩,
      ["node", "cli", "init"], 1700000000000, .error ()⟩).outcome =
      (main (withSkip ⟨"react-native", "0.75.4", ⟨some "npx", none, none⟩,
        ["node", "cli", "init"], 1700000000000, .error ()⟩)).outcome :=
  fetch_failure_suppressed _ rfl

/-- C6: with a running version in the 0.75 line, the terminal state not
triggered, and first argument "init", `main` emits the schedule warning
whose days-remaining count is exactly the ceiling of
`(cutoff - now) / 86400000` (characterized by the two inequalities), whose
emphasis is tiered at the 10/30/60-day thresholds, and the process is not
terminated. -/
theorem schedule_warning_days_and_tier (i : MainInput)
    (hver : jsStartsWith i.currentVersion "0.75" = true)
    (hterm : isDeprecatedAt i.currentVersion i.nowMs = false)
    (harg : i.argv[2]? = some "init") :
    86400000 * (daysRemaining i.nowMs - 1) <
      CLI_DEPRECATION_DATE_MS - i.nowMs ∧
    CLI_DEPRECATION_DATE_MS - i.nowMs ≤ 86400000 * daysRemaining i.nowMs ∧
    Msg.scheduleWarning (daysRemaining i.nowMs)
      (if daysRemaining i.nowMs < 10 then .bgRedWhiteBold
       else if daysRemaining i.nowMs < 30 then .redBold
       else if daysRemaining i.nowMs < 60 then .greenBold
       else .blueBrightBold)
      (daysRemaining i.nowMs > 1) ∈ (main i).messages ∧
    (main i).outcome = .delegated i.pkgName i.argv := by
  have hc : (i.currentVersion ≠ HEAD &&
      isDeprecatedAt i.currentVersion i.nowMs) = false := by
    simp [hterm]
  have hcn : ¬((i.currentVersion ≠ HEAD &&
      isDeprecatedAt i.currentVersion i.nowMs) = true) := by
    rw [hc]
    exact Bool.false_ne_true
  have hdiv : (i.nowMs - CLI_DEPRECATION_DATE_MS).fdiv 86400000 =
      (i.nowMs - CLI_DEPRECATION_DATE_MS) / 86400000 :=
    Int.fdiv_eq_ediv _ (by decide)
  refine ⟨?_, ?_, ?_, ?_⟩
  · unfold daysRemaining
    rw [hdiv]
    omega
  · unfold daysRemaining
    rw [hdiv]
    omega
  · rw [main_def, if_neg hcn]
    have hw : warnWithDeprecationSchedule (i.argv[2]?) i.nowMs =
        [Msg.scheduleWarning (daysRemaining i.nowMs)
          (if daysRemaining i.nowMs < 10 then .bgRedWhiteBold
           else if daysRemaining i.nowMs < 30 then .redBold
           else if daysRemaining i.nowMs < 60 then .greenBold
           else .blueBrightBold)
          (daysRemaining i.nowMs > 1)] := by
      simp [warnWithDeprecationSchedule, harg]
    simp [hver, hw]
  · rw [main_def, if_neg hcn]

/-- Witness for C6 at version "0.75.4", five days before the cutoff,
argument "init": the warning reports 5 days with the strongest emphasis
tier and the process delegates. -/
theorem schedule_warning_days_and_tier_witness :
    Msg.scheduleWarning 5 Tier.bgRedWhiteBold true ∈
      (main ⟨"react-native", "0.75.4", ⟨none, none, none⟩,
        ["node", "cli", "init"], 1727222400000, .error ()⟩).messages ∧
    (main ⟨"react-native", "0.75.4", ⟨none, none, none⟩,
      ["node", "cli", "init"], 1727222400000, .error ()⟩).outcome =
      .delegated "react-native" ["node", "cli", "init"] := by
  obtain ⟨-, -, hmem, hout⟩ :=
    schedule_warning_days_and_tier
      ⟨"react-native", "0.75.4", ⟨none, none, none⟩,
        ["node", "cli", "init"], 1727222400000, .error ()⟩
      (by decide) (by decide) (by decide)
  have h5 : daysRemaining 1727222400000 = 5 := by decide
  rw [h5] at hmem
  refine ⟨?_, hout⟩
  simpa using hmem

/-- C7: with a non-"init" first positional argument, no deprecation message
(light notice, schedule warning, or terminal notice) is ever printed, at
any date and any running version. -/
theorem non_init_prints_no_deprecation_message (i : MainInput)
    (h : i.argv[2]? ≠ some "init") :
    Msg.lightNotice ∉ (main i).messages ∧
    (∀ d e p, Msg.scheduleWarning d e p ∉ (main i).messages) ∧
    Msg.terminalNotice ∉ (main i).messages :=
  no_deprecation_message_of_non_init h

/-- Witness for C7 with first argument "start" at the cutoff instant. -/
theorem non_init_prints_no_deprecation_message_witness :
    Msg.lightNotice ∉
      (main ⟨"react-native", "0.75.4", ⟨none, none, none⟩,
        ["node", "cli", "start"], 1727654400000, .error ()⟩).messages ∧
    (∀ d e p, Msg.scheduleWarning d e p ∉
      (main ⟨"react-native", "0.75.4", ⟨none, none, none⟩,
        ["node", "cli", "start"], 1727654400000, .error ()⟩).messages) ∧
    Msg.terminalNotice ∉
      (main ⟨"react-native", "0.75.4", ⟨none, none, none⟩,
        ["node", "cli", "start"], 1727654400000, .error ()⟩).messages :=
  non_init_prints_no_deprecation_message _ (by decide)

/-- C9: whenever the deprecation gate completes without terminating the
process (the running version is the HEAD marker or the terminal condition
is false), `main` hands control to the delegate's `run` entry point with
the program name, the full original `process.argv` being left untouched at
hand-off. -/
theorem delegation_passes_name_and_argv (i : MainInput)
    (h : i.currentVersion = HEAD ∨
      isDeprecatedAt i.currentVersion i.nowMs = false) :
    (main i).outcome = .delegated i.pkgName i.argv := by
  have hc : (i.currentVersion ≠ HEAD &&
      isDeprecatedAt i.currentVersion i.nowMs) = false := by
    rcases h with h | h <;> simp [h]
  have hcn : ¬((i.currentVersion ≠ HEAD &&
      isDeprecatedAt i.currentVersion i.nowMs) = true) := by
    rw [hc]
    exact Bool.false_ne_true
  rw [main_def, if_neg hcn]

/-- Witness for C9 on a HEAD build with arguments ["node", "cli", "start"]. -/
theorem delegation_passes_name_and_argv_witness :
    (main ⟨"react-native", "1000.0.0", ⟨none, none, none⟩,
      ["node", "cli", "start"], 1900000000000, .error ()⟩).outcome =
      .delegated "react-native" ["node", "cli", "start"] :=
  delegation_passes_name_and_argv _ (Or.inl rfl)

/-- C10: once the terminal condition holds and the version is not the HEAD
marker, `main` exits with code 1 whatever the first positional argument is;
for a non-"init" argument it does so printing no deprecation message and
never invoking the delegate. -/
theorem terminal_gate_exits_for_any_argument (i : MainInput)
    (hdep : CLI_DEPRECATION_DATE_MS ≤ i.nowMs ∨
      jsStartsWith i.currentVersion "0.76" = true)
    (hver : i.currentVersion ≠ HEAD) :
    (main i).outcome = .exited 1 ∧
    (i.argv[2]? ≠ some "init" →
      Msg.lightNotice ∉ (main i).messages ∧
      (∀ d e p, Msg.scheduleWarning d e p ∉ (main i).messages) ∧
      Msg.terminalNotice ∉ (main i).messages ∧
      ∀ s args, (main i).outcome ≠ .delegated s args) := by
  have hc : (i.currentVersion ≠ HEAD &&
      isDeprecatedAt i.currentVersion i.nowMs) = true := by
    simp only [isDeprecatedAt, Bool.and_eq_true, Bool.or_eq_true,
      decide_eq_true_eq]
    exact ⟨hver, hdep⟩
  have hout : (main i).outcome = .exited 1 := by
    rw [main_def, if_pos hc]
  refine ⟨hout, fun harg => ?_⟩
  obtain ⟨h1, h2, h3⟩ := no_deprecation_message_of_non_init harg
  exact ⟨h1, h2, h3, fun s args hcontra => by
    rw [hout] at hcontra
    exact Outcome.noConfusion hcontra⟩

/-- Witness for C10 on version "0.76.1" (terminal by version prefix, before
the cutoff date) with first argument "start". -/
theorem terminal_gate_exits_for_any_argument_witness :
    (main ⟨"react-native", "0.76.1", ⟨none, none, none⟩,
      ["node", "cli", "start"], 1700000000000, .error ()⟩).outcome =
      .exited 1 ∧
    ((["node", "cli", "start"] : List String)[2]? ≠ some "init" →
      Msg.lightNotice ∉
        (main ⟨"react-native", "0.76.1", ⟨none, none, none⟩,
          ["node", "cli", "start"], 1700000000000, .error ()⟩).messages ∧
      (∀ d e p, Msg.scheduleWarning d e p ∉
        (main ⟨"react-native", "0.76.1", ⟨none, none, none⟩,
          ["node", "cli", "start"], 1700000000000, .error ()⟩).messages) ∧
      Msg.terminalNotice ∉
        (main ⟨"react-native", "0.76.1", ⟨none, none, none⟩,
          ["node", "cli", "start"], 1700000000000, .error ()⟩).messages ∧
      ∀ s args,
        (main ⟨"react-native", "0.76.1", ⟨none, none, none⟩,
          ["node", "cli", "start"], 1700000000000, .error ()⟩).outcome ≠
          .delegated s args) :=
  terminal_gate_exits_for_any_argument _ (Or.inr (by decide)) (by decide)

end RNCli
